import Mathlib

/-!
Verification of `vxvas2nets/vas2nets_sms.py` (the Vas2Nets SMS transport)
against its natural-language specification.

The Python module is shallowly embedded: pure helpers become Lean
functions, and the `@inlineCallbacks` handlers become functions from
their inputs (plus the outcome of the single vendor HTTP call, which is
an input of the outbound pipeline) to the ordered list of observable
effects they emit (bus publishes, HTTP responses, acks/nacks/rejections,
health-status events, the vendor HTTP call itself).  A Python exception
escaping a handler is modelled as `Option.none`.
-/

namespace Vas2Nets

/-- A Python-value universe sufficient for the dictionaries the module
manipulates: `None`, strings, and string-keyed dicts.  `dget` below
models `dict.get`, which returns `None` for a missing key, so a missing
key and a key mapped to `None` are indistinguishable through `get`,
exactly as in Python. -/
inductive Val where
  | vnull : Val
  | vstr : String → Val
  | vdict : List (String × Val) → Val

/-- `d.get(k)` on a dict given as an association list (first match wins;
Python dict keys are unique, so this is faithful): missing keys give
`vnull`. -/
def dget (entries : List (String × Val)) (k : String) : Val :=
  match entries with
  | [] => Val.vnull
  | (k', v) :: rest => if k' = k then v else dget rest k

/-- Embedding of the module-level helper

```python
def get_in(data, *keys):
    for key in keys:
        data = data.get(key)
        if data is None:
            return None
    return data
```

`none` models the `AttributeError` raised when `.get` is called on a
value that is not a dict (Python `None.get` also raises, but the loop
checks for `None` before calling `.get` again, so only the *initial*
data or a *non-null* intermediate can be a non-dict here). -/
def get_in : Val → List String → Option Val
  | data, [] => some data
  | Val.vdict es, k :: ks =>
      match dget es k with
      | Val.vnull => some Val.vnull
      | Val.vstr s => get_in (Val.vstr s) ks
      | Val.vdict es' => get_in (Val.vdict es') ks
  | Val.vnull, _ :: _ => none
  | Val.vstr _, _ :: _ => none

/-- Spec-side reference for `get_in`, written from the spec's words:
"returns the value reached by looking up the keys in order, and returns
null as soon as any intermediate lookup is absent or null".  Compared
against `get_in` in the refinement theorem; on a chain that leaves the
dict world it returns `vnull` (the spec does not define that case, and
the theorem only relates the two under `supportsLookup`). -/
def chainLookupSpec : Val → List String → Val
  | data, [] => data
  | Val.vdict es, k :: ks =>
      match dget es k with
      | Val.vnull => Val.vnull
      | Val.vstr s => chainLookupSpec (Val.vstr s) ks
      | Val.vdict es' => chainLookupSpec (Val.vdict es') ks
  | Val.vnull, _ :: _ => Val.vnull
  | Val.vstr _, _ :: _ => Val.vnull

/-- "Inputs whose intermediate values support key lookup": every value
on which the loop actually calls `.get` is a dict (a null intermediate
short-circuits, so what follows it is unconstrained). -/
def supportsLookup : Val → List String → Bool
  | _, [] => true
  | Val.vdict es, k :: ks =>
      match dget es k with
      | Val.vnull => true
      | Val.vstr s => supportsLookup (Val.vstr s) ks
      | Val.vdict es' => supportsLookup (Val.vdict es') ks
  | Val.vnull, _ :: _ => false
  | Val.vstr _, _ :: _ => false

theorem get_in_eq_chain (data : Val) (keys : List String)
    (h : supportsLookup data keys = true) :
    get_in data keys = some (chainLookupSpec data keys) := by
  induction keys generalizing data with
  | nil => simp [get_in, chainLookupSpec]
  | cons k ks ih =>
      cases data with
      | vnull => simp [supportsLookup] at h
      | vstr s => simp [supportsLookup] at h
      | vdict es =>
          simp only [get_in, chainLookupSpec, supportsLookup] at *
          cases hv : dget es k with
          | vnull => simp [hv]
          | vstr s => simp only [hv] at h ⊢; exact ih _ h
          | vdict es' => simp only [hv] at h ⊢; exact ih _ h

/-! ## Response classifier: `ERROR_RE` and `get_send_status`

`ERROR_RE = re.compile(r'^(?P<code>ERR-\d+) (?P<message>.*)$')`, applied
with `.search`.  Because `^` without `re.MULTILINE` only matches at the
start of the string, `search` behaves like an anchored match.  `\d+` is
greedy over ASCII digits and must be followed by a literal space; `.`
does not match a newline, and `$` without `re.MULTILINE` matches at the
end of the string or just before a newline that ends the string.  The
embedding below implements exactly these semantics for this one
pattern. -/

/-- Split off the maximal ASCII-digit prefix (the greedy `\d+` munch:
a shorter digit prefix would put a digit where the pattern requires a
space, so maximal munch is equivalent to backtracking here). -/
def splitDigits : List Char → List Char × List Char
  | [] => ([], [])
  | c :: cs =>
      if c.isDigit then
        let p := splitDigits cs
        (c :: p.1, p.2)
      else ([], c :: cs)

/-- `(?P<message>.*)$`: the tail matches iff it is newline-free, or is a
newline-free text followed by one final newline (which `$` tolerates);
the captured message excludes that final newline. -/
def msgOf (tail : List Char) : Option (List Char) :=
  if '\n' ∈ tail then
    if tail.getLast? = some '\n' ∧ '\n' ∉ tail.dropLast then
      some tail.dropLast
    else none
  else some tail

/-- The literal `ERR-` prefix of the pattern: strip it or fail. -/
def parseERR (content : List Char) : Option (List Char) :=
  match content with
  | e :: r1 :: r2 :: dash :: rest =>
      if e = 'E' ∧ r1 = 'R' ∧ r2 = 'R' ∧ dash = '-' then some rest
      else none
  | _ => none

/-- `\d+` followed by the literal space: the nonempty digit run and
what follows the space. -/
def parseCodeTail (rest : List Char) :
    Option (List Char × List Char) :=
  match splitDigits rest with
  | ([], _) => none
  | (_ :: _, []) => none
  | (d0 :: ds, r0 :: tail) =>
      if r0 = ' ' then some (d0 :: ds, tail) else none

/-- The anchored match of `ERROR_RE` against the response body, giving
the `code` and `message` groups. -/
def error_re_match (content : List Char) :
    Option (List Char × List Char) :=
  (parseERR content).bind fun rest =>
    (parseCodeTail rest).bind fun p =>
      (msgOf p.2).map fun m => ('E' :: 'R' :: 'R' :: '-' :: p.1, m)

/-- Vendor response status: `{'code': ..., 'message': ...}`. -/
structure SendStatus where
  code : Option String
  message : String
deriving Repr, DecidableEq

/-- Embedding of

```python
def get_send_status(self, content):
    match = self.ERROR_RE.search(content)
    if match is None:
        return {'code': None, 'message': content}
    else:
        return {'code': match.group('code'),
                'message': match.group('message')}
```
-/
def get_send_status (content : String) : SendStatus :=
  match error_re_match content.toList with
  | none => { code := none, message := content }
  | some (c, m) => { code := some (String.mk c), message := String.mk m }

/-! ## Outcome mapper: `SEND_FAIL_TYPES` and `get_send_fail_type` -/

/-- The fixed table, transcribed verbatim (including the source's
`ender_id_too_long` spelling for ERR-21). -/
def SEND_FAIL_TYPES : List (String × String) :=
  [ ("ERR-11", "missing_username"),
    ("ERR-12", "missing_password"),
    ("ERR-13", "missing_destination"),
    ("ERR-14", "missing_sender_id"),
    ("ERR-15", "missing_message"),
    ("ERR-21", "ender_id_too_long"),
    ("ERR-33", "invalid_login"),
    ("ERR-41", "insufficient_credit"),
    ("ERR-70", "invalid_destination_number"),
    ("ERR-51", "invalid_message_id"),
    ("ERR-52", "system_error") ]

/-- `self.SEND_FAIL_TYPES.get(code, 'request_fail_unknown')`; `code`
may be Python `None`, which is not a key of the table, hence falls to
the default. -/
def get_send_fail_type (code : Option String) : String :=
  match code with
  | none => "request_fail_unknown"
  | some c =>
      match SEND_FAIL_TYPES.lookup c with
      | some t => t
      | none => "request_fail_unknown"

/-! ## Transport data model -/

/-- The recognised configuration options (`Vas2NetsSmsTransportConfig`):
`outbound_request_timeout` is `none` for "no timeout". -/
structure Config where
  outbound_url : String
  outbound_request_timeout : Option Nat
  username : String
  password : String

/-- A bus outbound message as consumed by `handle_outbound_message`.
`from_addr`/`to_addr`/`content` are `none` when the field is Python
`None` (vumi messages always carry the keys); `transport_metadata` is a
`Val`, making `get_in` applicable to it. -/
structure OutMessage where
  message_id : String
  from_addr : Option String
  to_addr : Option String
  content : Option String
  transport_metadata : Val

def optStr : Option String → Val
  | some s => Val.vstr s
  | none => Val.vnull

/-- The outbound message viewed as the Python dict that
`get_in(message, 'transport_metadata', 'vas2nets_sms', 'msgid')`
traverses. -/
def msgVal (msg : OutMessage) : Val :=
  Val.vdict
    [ ("message_id", Val.vstr msg.message_id),
      ("from_addr", optStr msg.from_addr),
      ("to_addr", optStr msg.to_addr),
      ("content", optStr msg.content),
      ("transport_metadata", msg.transport_metadata) ]

def EXPECTED_FIELDS : List String :=
  ["sender", "receiver", "msgdata", "recvtime", "msgid", "operator"]

def EXPECTED_MESSAGE_FIELDS : List String :=
  ["from_addr", "to_addr", "content"]

/-- A field of the outbound message is falsy (absent/None or empty). -/
def emptyField (msg : OutMessage) (f : String) : Bool :=
  if f = "from_addr" then msg.from_addr.getD "" = ""
  else if f = "to_addr" then msg.to_addr.getD "" = ""
  else if f = "content" then msg.content.getD "" = ""
  else false

/-- Modelled from the spec: the Field Validator side used for outbound
messages (`Transport.ensure_message_values`, a vumi collaborator whose
code is not in this repository) "returns the set of names that are
missing or empty" for the required field set. -/
def ensure_message_values (msg : OutMessage) (fields : List String) :
    List String :=
  fields.filter (emptyField msg)

/-- The bus message dict built by `get_message_dict` on inbound
success. -/
structure MessageDict where
  message_id : String
  from_addr : String
  from_addr_type : String
  to_addr : String
  content : String
  provider : String
  transport_type : String
  transport_metadata : Val

/-- The JSON body this transport sends back to the inbound HTTP
caller: `{}` on success, `{'invalid_request': <request dict>}` on a
decode error, or the field-error set on a validation failure. -/
inductive RespBody where
  | emptyJson
  | invalidRequest (req : Val)
  | fieldErrors (errors : List String)

/-- Every observable effect a handler can emit, in emission order:
the vendor HTTP call, bus publishes/acks/nacks/rejections, HTTP
responses to the inbound caller, and health-status events. -/
inductive Effect where
  | httpCall (url : String) (params : List (String × Val))
      (timeout : Option Nat)
  | publish (md : MessageDict)
  | respond (code : Nat) (body : RespBody)
  | ack (user_message_id sent_message_id : String)
  | nack (user_message_id sent_message_id reason : String)
  | reject (message_id : String) (missing_fields : List String)
  | status (component stat ty msg : String) (details : Option Val)

/-- `twisted.web.http` status constants. -/
def httpOK : Nat := 200

def httpBAD_REQUEST : Nat := 400

/-- How the single vendor HTTP call of a send attempt terminates: one
of the three caught exception types, or a response with a status code
and a body. -/
inductive SendOutcome where
  | responseNeverReceived
  | connectingCancelled
  | cancelled
  | response (code : Nat) (body : String)

/-! ## Outbound pipeline -/

/-- Embedding of `get_send_params`.  `none` models the exception raised
if `get_in` is applied to a metadata chain that does not support
lookup; otherwise the returned association list is the `params` dict in
insertion order, with `message_id` added only when the chained lookup
produced a non-null id. -/
def get_send_params (c : Config) (msg : OutMessage) :
    Option (List (String × Val)) :=
  let params : List (String × Val) :=
    [ ("username", Val.vstr c.username),
      ("password", Val.vstr c.password),
      ("sender", optStr msg.from_addr),
      ("receiver", optStr msg.to_addr),
      ("message", optStr msg.content) ]
  match get_in (msgVal msg)
      ["transport_metadata", "vas2nets_sms", "msgid"] with
  | none => none
  | some Val.vnull => some params
  | some v => some (params ++ [("message_id", v)])

/-- Modelled from the spec: `Transport.reject_message` (vumi
collaborator, not in this repository) "reject[s] the message back to
the bus with the set of missing field names as the reason"; the spec
attaches no health-status emission to this bus rejection (§4.5, §8). -/
def reject_message (msg : OutMessage) (missing : List String) :
    List Effect :=
  [Effect.reject msg.message_id missing]

/-- Embedding of `handle_send_timeout`. -/
def handle_send_timeout (msg : OutMessage) : List Effect :=
  [ Effect.nack msg.message_id msg.message_id "Request timeout",
    Effect.status "outbound" "down" "request_timeout" "Request timeout"
      none ]

/-- Embedding of `handle_outbound_success`. -/
def handle_outbound_success (msg : OutMessage) : List Effect :=
  [ Effect.ack msg.message_id msg.message_id,
    Effect.status "outbound" "ok" "request_success" "Request successful"
      none ]

/-- Embedding of `handle_outbound_fail`. -/
def handle_outbound_fail (msg : OutMessage) (st : SendStatus) :
    List Effect :=
  [ Effect.nack msg.message_id msg.message_id st.message,
    Effect.status "outbound" "down" (get_send_fail_type st.code)
      st.message none ]

/-- Embedding of `handle_outbound_message`: validate, and if nothing is
missing issue the vendor call (`send_message`, recorded as an
`httpCall` effect) whose outcome is the `outcome` argument; the three
caught exception types go to `handle_send_timeout`, a response is read
and classified, and success means HTTP 200 with a null classified
code.  `none` models an uncaught exception (only reachable through
`get_send_params`). -/
def handle_outbound_message (c : Config) (msg : OutMessage)
    (outcome : SendOutcome) : Option (List Effect) :=
  let missing := ensure_message_values msg EXPECTED_MESSAGE_FIELDS
  if missing ≠ [] then some (reject_message msg missing)
  else
    match get_send_params c msg with
    | none => none
    | some params =>
        let call := Effect.httpCall c.outbound_url params
          c.outbound_request_timeout
        match outcome with
        | SendOutcome.responseNeverReceived =>
            some (call :: handle_send_timeout msg)
        | SendOutcome.connectingCancelled =>
            some (call :: handle_send_timeout msg)
        | SendOutcome.cancelled =>
            some (call :: handle_send_timeout msg)
        | SendOutcome.response code body =>
            let st := get_send_status body
            if code = httpOK ∧ st.code = none then
              some (call :: handle_outbound_success msg)
            else
              some (call :: handle_outbound_fail msg st)

/-! ## Inbound pipeline -/

/-- An inbound HTTP request as this pipeline sees it: whether its
content decodes as text at all, the decoded field mapping, and the
request-description dict that `get_request_dict` would build (opaque
here). -/
structure InRequest where
  decodeOk : Bool
  fields : List (String × String)
  desc : Val

/-- Health-status details payloads, kept structurally. -/
def decodeErrorDetails (req : InRequest) : Val :=
  Val.vdict [("request", req.desc)]

def badFieldsDetails (req : InRequest) (errors : List String) : Val :=
  Val.vdict
    [ ("request", req.desc),
      ("errors", Val.vdict (errors.map (fun e => (e, Val.vnull)))) ]

/-- Modelled from the spec: the Field Validator
(`HttpRpcTransport.get_field_values`, a vumi collaborator whose code is
not in this repository) "returns (a) the subset of the mapping
restricted to the required names when all are present and individually
non-empty, and (b) the set of names that are missing or empty". -/
def get_field_values (req : InRequest) (expected : List String) :
    List (String × String) × List String :=
  ( expected.filterMap
      (fun f => (req.fields.lookup f).map (fun v => (f, v))),
    expected.filter
      (fun f =>
        match req.fields.lookup f with
        | none => true
        | some v => v = "") )

/-- Embedding of `get_message_dict`; `none` models the `KeyError` that
the dict lookups would raise were a required field absent from `vals`
(unreachable from the pipeline, which only calls this with a complete
`vals`). -/
def get_message_dict (message_id : String)
    (vals : List (String × String)) : Option MessageDict :=
  match vals.lookup "sender", vals.lookup "receiver",
      vals.lookup "msgdata", vals.lookup "msgid",
      vals.lookup "operator" with
  | some sender, some receiver, some msgdata, some msgid,
      some operator =>
      some
        { message_id := message_id
          from_addr := sender
          from_addr_type := "msisdn"
          to_addr := receiver
          content := msgdata
          provider := operator
          transport_type := "sms"
          transport_metadata :=
            Val.vdict
              [("vas2nets_sms", Val.vdict [("msgid", Val.vstr msgid)])] }
  | _, _, _, _, _ => none

/-- Embedding of `handle_decode_error`. -/
def handle_decode_error (_message_id : String) (req : InRequest) :
    List Effect :=
  [ Effect.respond httpBAD_REQUEST (RespBody.invalidRequest req.desc),
    Effect.status "inbound" "down" "request_decode_error"
      "Bad request encoding" (some (decodeErrorDetails req)) ]

/-- Embedding of `handle_bad_request_fields`. -/
def handle_bad_request_fields (_message_id : String) (req : InRequest)
    (errors : List String) : List Effect :=
  [ Effect.respond httpBAD_REQUEST (RespBody.fieldErrors errors),
    Effect.status "inbound" "down" "request_bad_fields"
      "Bad request fields" (some (badFieldsDetails req errors)) ]

/-- Embedding of `handle_inbound_message`: publish the bus message,
then respond HTTP 200 `{}`, then emit the ok status. -/
def handle_inbound_message (message_id : String) (_req : InRequest)
    (vals : List (String × String)) : Option (List Effect) :=
  match get_message_dict message_id vals with
  | none => none
  | some md =>
      some
        [ Effect.publish md,
          Effect.respond httpOK RespBody.emptyJson,
          Effect.status "inbound" "ok" "request_success"
            "Request successful" none ]

/-- Embedding of `handle_raw_inbound_message`: a `UnicodeDecodeError`
from `get_field_values` goes to `handle_decode_error`; otherwise the
error set decides between the bad-fields path and the success path. -/
def handle_raw_inbound_message (message_id : String) (req : InRequest) :
    Option (List Effect) :=
  if req.decodeOk = false then
    some (handle_decode_error message_id req)
  else
    let fv := get_field_values req EXPECTED_FIELDS
    if fv.2 ≠ [] then
      some (handle_bad_request_fields message_id req fv.2)
    else handle_inbound_message message_id req fv.1

/-- Count of health-status effects in an emitted effect list. -/
def statusCount (effs : List Effect) : Nat :=
  (effs.filter
    (fun e =>
      match e with
      | Effect.status _ _ _ _ _ => true
      | _ => false)).length

/-- Is any vendor HTTP call among the effects? -/
def hasHttpCall (effs : List Effect) : Bool :=
  effs.any
    (fun e =>
      match e with
      | Effect.httpCall _ _ _ => true
      | _ => false)

/-! ## Characterisation of the `ERROR_RE` match -/

/-- Spec-side description of the pattern
`^(?P<code>ERR-\d+) (?P<message>.*)$` under Python's default (single
line) flags: the code group is `ERR-` plus a nonempty digit run, a
single space separates it from the message group, the message has no
newline, and the whole body is exactly that (with one final newline
tolerated by `$`). -/
def ErrorPattern (content code msg : List Char) : Prop :=
  ∃ d : List Char, d ≠ [] ∧ (∀ c ∈ d, c.isDigit) ∧
    code = 'E' :: 'R' :: 'R' :: '-' :: d ∧ '\n' ∉ msg ∧
    (content = code ++ ' ' :: msg ∨ content = code ++ ' ' :: msg ++ ['\n'])

theorem splitDigits_append (cs : List Char) :
    (splitDigits cs).1 ++ (splitDigits cs).2 = cs := by
  induction cs with
  | nil => rfl
  | cons c cs ih =>
      by_cases h : c.isDigit <;> simp [splitDigits, h, ih]

theorem splitDigits_digits (cs : List Char) :
    ∀ c ∈ (splitDigits cs).1, c.isDigit := by
  induction cs with
  | nil => intro c hc; simp [splitDigits] at hc
  | cons c cs ih =>
      intro x hx
      by_cases h : c.isDigit <;> simp [splitDigits, h] at hx
      rcases hx with rfl | hx
      · exact h
      · exact ih x hx

theorem splitDigits_cons_digit (c : Char) (cs : List Char)
    (h : c.isDigit) :
    splitDigits (c :: cs) =
      (c :: (splitDigits cs).1, (splitDigits cs).2) := by
  simp [splitDigits, h]

theorem splitDigits_of_append (d r : List Char)
    (hd : ∀ c ∈ d, c.isDigit)
    (hr : ∀ c r', r = c :: r' → c.isDigit = false) :
    splitDigits (d ++ r) = (d, r) := by
  induction d with
  | nil =>
      cases r with
      | nil => rfl
      | cons c r' => simp [splitDigits, hr c r' rfl]
  | cons c d ih =>
      have hc : c.isDigit := hd c (by simp)
      have ih' := ih (fun x hx => hd x (by simp [hx]))
      rw [List.cons_append, splitDigits_cons_digit c (d ++ r) hc, ih']

theorem msgOf_eq_some (tail m : List Char) :
    msgOf tail = some m ↔
      '\n' ∉ m ∧ (tail = m ∨ tail = m ++ ['\n']) := by
  unfold msgOf
  by_cases hmem : '\n' ∈ tail
  · rw [if_pos hmem]
    by_cases hc : tail.getLast? = some '\n' ∧ '\n' ∉ tail.dropLast
    · rw [if_pos hc]
      constructor
      · intro h
        obtain rfl : tail.dropLast = m := Option.some.inj h
        refine ⟨hc.2, Or.inr ?_⟩
        exact (List.dropLast_append_getLast? '\n'
          (Option.mem_def.mpr hc.1)).symm
      · rintro ⟨hm, rfl | rfl⟩
        · exact absurd hmem hm
        · simp
    · rw [if_neg hc]
      constructor
      · intro h; exact absurd h (by simp)
      · rintro ⟨hm, rfl | rfl⟩
        · exact absurd hmem hm
        · refine absurd ⟨?_, ?_⟩ hc
          · simp
          · simpa using hm
  · rw [if_neg hmem]
    constructor
    · intro h
      obtain rfl : tail = m := Option.some.inj h
      exact ⟨hmem, Or.inl rfl⟩
    · rintro ⟨hm, rfl | rfl⟩
      · rfl
      · exact absurd (by simp) hmem

theorem parseERR_eq_some (cs rest : List Char) :
    parseERR cs = some rest ↔
      cs = 'E' :: 'R' :: 'R' :: '-' :: rest := by
  rcases cs with _ | ⟨e, _ | ⟨r1, _ | ⟨r2, _ | ⟨dash, rest'⟩⟩⟩⟩ <;>
    simp [parseERR]
  tauto

theorem parseCodeTail_eq_some (rest d tail : List Char) :
    parseCodeTail rest = some (d, tail) ↔
      d ≠ [] ∧ (∀ c ∈ d, c.isDigit) ∧ rest = d ++ ' ' :: tail := by
  rcases hp : splitDigits rest with ⟨d', r'⟩
  have happ := splitDigits_append rest
  have hdig := splitDigits_digits rest
  rw [hp] at happ hdig
  simp only at happ hdig
  have huniq : ∀ dd tt, (∀ c ∈ dd, c.isDigit) →
      rest = dd ++ ' ' :: tt → d' = dd ∧ r' = ' ' :: tt := by
    intro dd tt hdd hrest
    have hs := splitDigits_of_append dd (' ' :: tt) hdd
      (by rintro c r'' hcr; injection hcr with h1 _; subst h1; rfl)
    rw [← hrest, hp] at hs
    exact ⟨congrArg Prod.fst hs, congrArg Prod.snd hs⟩
  unfold parseCodeTail
  rw [hp]
  cases d' with
  | nil =>
      refine iff_of_false (by simp) ?_
      rintro ⟨hne, hd, hrest⟩
      exact hne ((huniq d tail hd hrest).1.symm)
  | cons d0 ds =>
      cases r' with
      | nil =>
          refine iff_of_false (by simp) ?_
          rintro ⟨hne, hd, hrest⟩
          exact List.cons_ne_nil _ _ ((huniq d tail hd hrest).2).symm
      | cons r0 tail' =>
          show (if r0 = ' ' then some (d0 :: ds, tail') else none) =
              some (d, tail) ↔ _
          by_cases hr0 : r0 = ' '
          · subst hr0
            rw [if_pos rfl]
            simp only [Option.some.injEq, Prod.mk.injEq]
            constructor
            · rintro ⟨rfl, rfl⟩
              exact ⟨List.cons_ne_nil _ _, hdig, happ.symm⟩
            · rintro ⟨hne, hd, hrest⟩
              obtain ⟨h1, h2⟩ := huniq d tail hd hrest
              injection h2 with _ h3
              exact ⟨h1, h3⟩
          · rw [if_neg hr0]
            refine iff_of_false (by simp) ?_
            rintro ⟨hne, hd, hrest⟩
            have h2 := (huniq d tail hd hrest).2
            injection h2 with h1 _
            exact hr0 h1

theorem error_re_match_sound (cs code msg : List Char)
    (h : error_re_match cs = some (code, msg)) :
    ErrorPattern cs code msg := by
  simp only [error_re_match, Option.bind_eq_some, Option.map_eq_some']
    at h
  obtain ⟨rest, he, ⟨d, tail⟩, hc, m, hm, heq⟩ := h
  obtain ⟨rfl, rfl⟩ := Prod.mk.injEq _ _ _ _ ▸ heq
  obtain ⟨hdne, hdig, hrest⟩ := (parseCodeTail_eq_some rest d tail).mp hc
  have hcs := (parseERR_eq_some cs rest).mp he
  rw [hrest] at hcs
  rcases (msgOf_eq_some tail m).mp hm with ⟨hnl, rfl | rfl⟩
  · exact ⟨d, hdne, hdig, rfl, hnl, Or.inl (by simpa using hcs)⟩
  · exact ⟨d, hdne, hdig, rfl, hnl, Or.inr (by simpa using hcs)⟩

theorem error_re_match_complete (cs code msg : List Char)
    (h : ErrorPattern cs code msg) :
    error_re_match cs = some (code, msg) := by
  obtain ⟨d, hdne, hdig, rfl, hnl, hcs⟩ := h
  have htail : ∃ tail,
      cs = 'E' :: 'R' :: 'R' :: '-' :: (d ++ ' ' :: tail) ∧
      msgOf tail = some msg := by
    rcases hcs with rfl | rfl
    · exact ⟨msg, by simp, (msgOf_eq_some msg msg).mpr ⟨hnl, Or.inl rfl⟩⟩
    · exact ⟨msg ++ ['\n'], by simp,
        (msgOf_eq_some (msg ++ ['\n']) msg).mpr ⟨hnl, Or.inr rfl⟩⟩
  obtain ⟨tail, rfl, hm⟩ := htail
  simp only [error_re_match, Option.bind_eq_some, Option.map_eq_some']
  exact ⟨d ++ ' ' :: tail, (parseERR_eq_some _ _).mpr rfl, (d, tail),
    (parseCodeTail_eq_some _ _ _).mpr ⟨hdne, hdig, rfl⟩, msg, hm, rfl⟩

/-! ## Shared pipeline lemmas -/

theorem get_send_params_some (c : Config) (msg : OutMessage)
    (h : supportsLookup (msgVal msg)
      ["transport_metadata", "vas2nets_sms", "msgid"] = true) :
    ∃ ps, get_send_params c msg = some ps := by
  unfold get_send_params
  rw [get_in_eq_chain _ _ h]
  cases chainLookupSpec (msgVal msg)
      ["transport_metadata", "vas2nets_sms", "msgid"] with
  | vnull => exact ⟨_, rfl⟩
  | vstr s => exact ⟨_, rfl⟩
  | vdict es => exact ⟨_, rfl⟩

theorem handle_outbound_response_eq (c : Config) (msg : OutMessage)
    (code : Nat) (body : String)
    (hval : ensure_message_values msg EXPECTED_MESSAGE_FIELDS = [])
    (ps : List (String × Val)) (hps : get_send_params c msg = some ps) :
    handle_outbound_message c msg (SendOutcome.response code body) =
      some (Effect.httpCall c.outbound_url ps c.outbound_request_timeout
        :: (if code = httpOK ∧ (get_send_status body).code = none then
              handle_outbound_success msg
            else handle_outbound_fail msg (get_send_status body))) := by
  simp only [handle_outbound_message, hval, hps]
  simp only [ne_eq, not_true_eq_false, if_false, ite_not]
  by_cases hc : code = httpOK ∧ (get_send_status body).code = none
  · simp [hc]
  · simp [hc]

theorem handle_outbound_timeout_eq (c : Config) (msg : OutMessage)
    (outcome : SendOutcome)
    (hval : ensure_message_values msg EXPECTED_MESSAGE_FIELDS = [])
    (ps : List (String × Val)) (hps : get_send_params c msg = some ps)
    (hto : outcome = SendOutcome.responseNeverReceived ∨
      outcome = SendOutcome.connectingCancelled ∨
      outcome = SendOutcome.cancelled) :
    handle_outbound_message c msg outcome =
      some (Effect.httpCall c.outbound_url ps c.outbound_request_timeout
        :: handle_send_timeout msg) := by
  rcases hto with rfl | rfl | rfl <;>
    · simp only [handle_outbound_message, hval, hps]
      simp

theorem lookup_mem_snd (l : List (String × String)) (c t : String)
    (h : l.lookup c = some t) : t ∈ l.map Prod.snd := by
  induction l with
  | nil => simp [List.lookup] at h
  | cons p rest ih =>
      obtain ⟨k, v⟩ := p
      simp only [List.lookup] at h
      split at h
      · obtain rfl := Option.some.inj h
        simp
      · simp only [List.map_cons, List.mem_cons]
        exact Or.inr (ih h)

/-! ## Concrete fixtures used by witnesses and counterexamples -/

def cfgW : Config :=
  { outbound_url := "http://vendor.example/send"
    outbound_request_timeout := some 30
    username := "user"
    password := "pass" }

def msgW : OutMessage :=
  { message_id := "mid-1"
    from_addr := some "+111"
    to_addr := some "+222"
    content := some "hello"
    transport_metadata :=
      Val.vdict [("vas2nets_sms", Val.vdict [("msgid", Val.vstr "v-9")])] }

def msgNoToW : OutMessage :=
  { message_id := "mid-2"
    from_addr := some "+111"
    to_addr := none
    content := some "hello"
    transport_metadata := Val.vdict [] }

def paramsW : List (String × Val) :=
  [ ("username", Val.vstr "user"),
    ("password", Val.vstr "pass"),
    ("sender", Val.vstr "+111"),
    ("receiver", Val.vstr "+222"),
    ("message", Val.vstr "hello"),
    ("message_id", Val.vstr "v-9") ]

def reqW : InRequest :=
  { decodeOk := true
    fields :=
      [ ("sender", "+1"), ("receiver", "+2"), ("msgdata", "hi"),
        ("recvtime", "t"), ("msgid", "m0"), ("operator", "op") ]
    desc := Val.vnull }

def reqBadW : InRequest :=
  { decodeOk := true
    fields := [("sender", "+1")]
    desc := Val.vnull }

def reqUndecW : InRequest :=
  { decodeOk := false
    fields := []
    desc := Val.vnull }

def dataW : Val :=
  Val.vdict [("a", Val.vdict [("b", Val.vstr "x")])]

/-! ## Claim theorems -/

/-- Claim C9: for every mapping and key sequence whose intermediate
values support key lookup, `get_in` is total — it returns `some` value
and never raises — and that value is the one described by the spec:
the value reached by looking the keys up in order, short-circuiting to
null as soon as any intermediate lookup is absent or null
(`chainLookupSpec`). -/
theorem get_in_total_and_correct (data : Val) (keys : List String)
    (h : supportsLookup data keys = true) :
    get_in data keys = some (chainLookupSpec data keys) :=
  get_in_eq_chain data keys h

/-- Witness for C9 at a concrete nested dict. -/
theorem get_in_total_and_correct_witness :
    supportsLookup dataW ["a", "b"] = true ∧
    get_in dataW ["a", "b"] = some (chainLookupSpec dataW ["a", "b"]) :=
  ⟨rfl, get_in_total_and_correct dataW ["a", "b"] rfl⟩

/-- Claim C3: the outcome mapper is total — every input code (including
Python `None` and codes absent from the table) yields a tag from the
fixed vocabulary, anything not in the table yields the single generic
`request_fail_unknown` fallback — and the table covers the eleven
listed vendor conditions (entry ERR-21, sender ID too long, carries the
source's `ender_id_too_long` spelling). -/
theorem get_send_fail_type_total :
    (∀ code : Option String,
      get_send_fail_type code ∈
        "request_fail_unknown" :: SEND_FAIL_TYPES.map Prod.snd) ∧
    get_send_fail_type none = "request_fail_unknown" ∧
    (∀ c : String, SEND_FAIL_TYPES.lookup c = none →
      get_send_fail_type (some c) = "request_fail_unknown") ∧
    SEND_FAIL_TYPES.lookup "ERR-11" = some "missing_username" ∧
    SEND_FAIL_TYPES.lookup "ERR-12" = some "missing_password" ∧
    SEND_FAIL_TYPES.lookup "ERR-13" = some "missing_destination" ∧
    SEND_FAIL_TYPES.lookup "ERR-14" = some "missing_sender_id" ∧
    SEND_FAIL_TYPES.lookup "ERR-15" = some "missing_message" ∧
    SEND_FAIL_TYPES.lookup "ERR-21" = some "ender_id_too_long" ∧
    SEND_FAIL_TYPES.lookup "ERR-33" = some "invalid_login" ∧
    SEND_FAIL_TYPES.lookup "ERR-41" = some "insufficient_credit" ∧
    SEND_FAIL_TYPES.lookup "ERR-70" =
      some "invalid_destination_number" ∧
    SEND_FAIL_TYPES.lookup "ERR-51" = some "invalid_message_id" ∧
    SEND_FAIL_TYPES.lookup "ERR-52" = some "system_error" := by
  refine ⟨?_, rfl, ?_, rfl, rfl, rfl, rfl, rfl, rfl, rfl, rfl, rfl,
    rfl, rfl⟩
  · intro code
    cases code with
    | none => simp [get_send_fail_type]
    | some c =>
        show (match SEND_FAIL_TYPES.lookup c with
          | some t => t
          | none => "request_fail_unknown") ∈
            "request_fail_unknown" :: SEND_FAIL_TYPES.map Prod.snd
        cases hl : SEND_FAIL_TYPES.lookup c with
        | none => simp
        | some t =>
            simp only [List.mem_cons]
            exact Or.inr (lookup_mem_snd _ _ _ hl)
  · intro c hl
    simp [get_send_fail_type, hl]

/-- Witness for C3 at the unknown code ERR-99. -/
theorem get_send_fail_type_total_witness :
    SEND_FAIL_TYPES.lookup "ERR-99" = none ∧
    get_send_fail_type (some "ERR-99") = "request_fail_unknown" :=
  ⟨rfl, get_send_fail_type_total.2.2.1 "ERR-99" rfl⟩

/-- Claim C4: the classifier returns the extracted code and remaining
message exactly when the body matches the pattern (`ERR-` plus digits,
a space, then newline-free text, with one final newline tolerated by
`$`); when the body does not match it returns a null code with the
entire input as the message; being a total Lean function it never
raises on any input. -/
theorem get_send_status_spec (content : String) :
    (∀ code msg : List Char, ErrorPattern content.toList code msg →
      get_send_status content =
        { code := some (String.mk code), message := String.mk msg }) ∧
    ((¬ ∃ code msg, ErrorPattern content.toList code msg) →
      get_send_status content = { code := none, message := content }) := by
  constructor
  · intro code msg hp
    unfold get_send_status
    rw [error_re_match_complete _ _ _ hp]
  · intro hn
    unfold get_send_status
    cases hm : error_re_match content.toList with
    | none => rfl
    | some p =>
        obtain ⟨c, m⟩ := p
        exact absurd ⟨c, m, error_re_match_sound _ _ _ hm⟩ hn

/-- Witness for C4: the documented example body classifies to code
ERR-41 and message "Insufficient credit". -/
theorem get_send_status_spec_witness :
    ErrorPattern "ERR-41 Insufficient credit".toList "ERR-41".toList
      "Insufficient credit".toList ∧
    get_send_status "ERR-41 Insufficient credit" =
      { code := some "ERR-41", message := "Insufficient credit" } := by
  have hp : ErrorPattern "ERR-41 Insufficient credit".toList
      "ERR-41".toList "Insufficient credit".toList :=
    ⟨['4', '1'], by decide, by decide, rfl, by decide, Or.inl rfl⟩
  exact ⟨hp,
    (get_send_status_spec "ERR-41 Insufficient credit").1 _ _ hp⟩

/-- Claim C10: a body that is exactly an error code with no following
space (e.g. `"ERR-41"`), and a body whose error code does not start at
the beginning of the text (its first character is not `E`), both fail
the pattern and classify as a null code with the whole body as the
message; consequently, with HTTP status 200 such a body takes the
success path: an acknowledgement, not a negative-acknowledgement. -/
theorem bare_code_classified_success :
    (∀ ds : List Char, (∀ c ∈ ds, c.isDigit) →
      get_send_status (String.mk ('E' :: 'R' :: 'R' :: '-' :: ds)) =
        { code := none,
          message := String.mk ('E' :: 'R' :: 'R' :: '-' :: ds) }) ∧
    (∀ (s : String) (c : Char), s.toList.head? = some c → c ≠ 'E' →
      get_send_status s = { code := none, message := s }) ∧
    (∀ (cfg : Config) (msg : OutMessage) (body : String),
      ensure_message_values msg EXPECTED_MESSAGE_FIELDS = [] →
      supportsLookup (msgVal msg)
        ["transport_metadata", "vas2nets_sms", "msgid"] = true →
      (get_send_status body).code = none →
      ∃ ps, handle_outbound_message cfg msg
          (SendOutcome.response 200 body) =
        some [Effect.httpCall cfg.outbound_url ps
            cfg.outbound_request_timeout,
          Effect.ack msg.message_id msg.message_id,
          Effect.status "outbound" "ok" "request_success"
            "Request successful" none]) := by
  refine ⟨?_, ?_, ?_⟩
  · intro ds hds
    unfold get_send_status
    cases hm : error_re_match (String.mk
        ('E' :: 'R' :: 'R' :: '-' :: ds)).toList with
    | none => rfl
    | some p =>
        exfalso
        obtain ⟨co, m⟩ := p
        obtain ⟨d, _, hdig, rfl, _, hcs | hcs⟩ :=
          error_re_match_sound _ _ _ hm
        · have hds' : ds = d ++ ' ' :: m := by
            simpa using hcs
          have : (' ' : Char).isDigit := hds ' ' (by simp [hds'])
          simp [Char.isDigit] at this
        · have hds' : ds = d ++ ' ' :: (m ++ ['\n']) := by
            simpa using hcs
          have : (' ' : Char).isDigit := hds ' ' (by simp [hds'])
          simp [Char.isDigit] at this
  · intro s c hhead hne
    unfold get_send_status
    cases hm : error_re_match s.toList with
    | none => rfl
    | some p =>
        exfalso
        obtain ⟨co, m⟩ := p
        obtain ⟨d, _, _, rfl, _, hcs | hcs⟩ :=
          error_re_match_sound _ _ _ hm
        · rw [hcs] at hhead
          simp at hhead
          exact hne hhead.symm
        · rw [hcs] at hhead
          simp at hhead
          exact hne hhead.symm
  · intro cfg msg body hval hsl hcode
    obtain ⟨ps, hps⟩ := get_send_params_some cfg msg hsl
    refine ⟨ps, ?_⟩
    rw [handle_outbound_response_eq cfg msg 200 body hval ps hps,
      if_pos ⟨rfl, hcode⟩]
    rfl

/-- Witness for C10: `"ERR-41"` (no space) classifies as a bare success
message, and with HTTP 200 the concrete outbound pipeline acks. -/
theorem bare_code_classified_success_witness :
    get_send_status "ERR-41" = { code := none, message := "ERR-41" } ∧
    handle_outbound_message cfgW msgW (SendOutcome.response 200 "ERR-41")
      = some [Effect.httpCall "http://vendor.example/send" paramsW
          (some 30),
        Effect.ack "mid-1" "mid-1",
        Effect.status "outbound" "ok" "request_success"
          "Request successful" none] := by
  constructor
  · exact bare_code_classified_success.1 ['4', '1'] (by decide)
  · obtain ⟨ps, hps⟩ :=
      bare_code_classified_success.2.2 cfgW msgW "ERR-41" rfl rfl rfl
    have he : get_send_params cfgW msgW = some paramsW := rfl
    have h2 := hps
    rw [show handle_outbound_message cfgW msgW
        (SendOutcome.response 200 "ERR-41") =
      some [Effect.httpCall "http://vendor.example/send" ps (some 30),
        Effect.ack "mid-1" "mid-1",
        Effect.status "outbound" "ok" "request_success"
          "Request successful" none] from h2]
    have : ps = paramsW := by
      have := handle_outbound_response_eq cfgW msgW 200 "ERR-41" rfl
        paramsW he
      rw [h2] at this
      simp only [Option.some.injEq, List.cons.injEq] at this
      exact (Effect.httpCall.inj this.1).2.1
    rw [this]

/-- Claim C6: an outbound bus message missing (or carrying an empty)
`from_addr`, `to_addr` or `content` is rejected back to the bus with
exactly the set of missing field names as the reason, and no vendor
HTTP call is issued. -/
theorem outbound_missing_fields_spec (cfg : Config) (msg : OutMessage)
    (outcome : SendOutcome)
    (h : ensure_message_values msg EXPECTED_MESSAGE_FIELDS ≠ []) :
    handle_outbound_message cfg msg outcome =
      some [Effect.reject msg.message_id
        (ensure_message_values msg EXPECTED_MESSAGE_FIELDS)] ∧
    hasHttpCall [Effect.reject msg.message_id
      (ensure_message_values msg EXPECTED_MESSAGE_FIELDS)] = false ∧
    (∀ f, f ∈ ensure_message_values msg EXPECTED_MESSAGE_FIELDS ↔
      (f ∈ EXPECTED_MESSAGE_FIELDS ∧ emptyField msg f = true)) := by
  refine ⟨?_, rfl, ?_⟩
  · unfold handle_outbound_message
    rw [if_pos h]
    rfl
  · intro f
    simp [ensure_message_values, List.mem_filter]

/-- Witness for C6: a message with `to_addr` absent is rejected citing
exactly `to_addr`, with no HTTP call. -/
theorem outbound_missing_fields_spec_witness :
    ensure_message_values msgNoToW EXPECTED_MESSAGE_FIELDS =
      ["to_addr"] ∧
    handle_outbound_message cfgW msgNoToW
        (SendOutcome.response 200 "OK") =
      some [Effect.reject "mid-2"
        (ensure_message_values msgNoToW EXPECTED_MESSAGE_FIELDS)] :=
  ⟨rfl, (outbound_missing_fields_spec cfgW msgNoToW
    (SendOutcome.response 200 "OK") (by decide)).1⟩

/-- Claim C7: all three caught send-failure exception types — response
never received, connection cancelled while connecting, and an
explicitly cancelled send — are treated identically: one negative
acknowledgement with both IDs equal to the message's `message_id` and
reason "Request timeout", plus one health-status event
{outbound, down, request_timeout}; exactly one HTTP call is made and
no retry is attempted. -/
theorem outbound_timeout_spec (cfg : Config) (msg : OutMessage)
    (outcome : SendOutcome)
    (hval : ensure_message_values msg EXPECTED_MESSAGE_FIELDS = [])
    (hsl : supportsLookup (msgVal msg)
      ["transport_metadata", "vas2nets_sms", "msgid"] = true)
    (hto : outcome = SendOutcome.responseNeverReceived ∨
      outcome = SendOutcome.connectingCancelled ∨
      outcome = SendOutcome.cancelled) :
    ∃ ps, handle_outbound_message cfg msg outcome =
      some [Effect.httpCall cfg.outbound_url ps
          cfg.outbound_request_timeout,
        Effect.nack msg.message_id msg.message_id "Request timeout",
        Effect.status "outbound" "down" "request_timeout"
          "Request timeout" none] := by
  obtain ⟨ps, hps⟩ := get_send_params_some cfg msg hsl
  exact ⟨ps, handle_outbound_timeout_eq cfg msg outcome hval ps hps hto⟩

/-- Witness for C7 at the explicit-cancellation cause. -/
theorem outbound_timeout_spec_witness :
    ensure_message_values msgW EXPECTED_MESSAGE_FIELDS = [] ∧
    ∃ ps, handle_outbound_message cfgW msgW SendOutcome.cancelled =
      some [Effect.httpCall cfgW.outbound_url ps
          cfgW.outbound_request_timeout,
        Effect.nack msgW.message_id msgW.message_id "Request timeout",
        Effect.status "outbound" "down" "request_timeout"
          "Request timeout" none] :=
  ⟨rfl, outbound_timeout_spec cfgW msgW SendOutcome.cancelled rfl rfl
    (Or.inr (Or.inr rfl))⟩

/-- Claim C2: for a validated outbound message whose vendor call yields
a response, the adapter acknowledges (both IDs = the message's own
`message_id`) and emits {outbound, ok, request_success} exactly when
the HTTP status is 200 and the classified code is null; otherwise it
negatively acknowledges with the classified message text as the reason
and emits {outbound, down, type = outcome-mapper tag of the extracted
code, message = classified message text}. -/
theorem outbound_response_ack_iff (cfg : Config) (msg : OutMessage)
    (code : Nat) (body : String)
    (hval : ensure_message_values msg EXPECTED_MESSAGE_FIELDS = [])
    (hsl : supportsLookup (msgVal msg)
      ["transport_metadata", "vas2nets_sms", "msgid"] = true) :
    ∃ ps, get_send_params cfg msg = some ps ∧
      ((code = httpOK ∧ (get_send_status body).code = none →
        handle_outbound_message cfg msg (SendOutcome.response code body)
          = some [Effect.httpCall cfg.outbound_url ps
              cfg.outbound_request_timeout,
            Effect.ack msg.message_id msg.message_id,
            Effect.status "outbound" "ok" "request_success"
              "Request successful" none]) ∧
      (¬(code = httpOK ∧ (get_send_status body).code = none) →
        handle_outbound_message cfg msg (SendOutcome.response code body)
          = some [Effect.httpCall cfg.outbound_url ps
              cfg.outbound_request_timeout,
            Effect.nack msg.message_id msg.message_id
              (get_send_status body).message,
            Effect.status "outbound" "down"
              (get_send_fail_type (get_send_status body).code)
              (get_send_status body).message none])) := by
  obtain ⟨ps, hps⟩ := get_send_params_some cfg msg hsl
  refine ⟨ps, hps, fun hc => ?_, fun hc => ?_⟩
  · rw [handle_outbound_response_eq cfg msg code body hval ps hps,
      if_pos hc]
    rfl
  · rw [handle_outbound_response_eq cfg msg code body hval ps hps,
      if_neg hc]
    rfl

/-- Witness for C2: the vendor failure body `"ERR-41 Insufficient
credit"` at HTTP 200 produces the nack and the `insufficient_credit`
down status on a concrete message. -/
theorem outbound_response_ack_iff_witness :
    handle_outbound_message cfgW msgW
        (SendOutcome.response 200 "ERR-41 Insufficient credit") =
      some [Effect.httpCall "http://vendor.example/send" paramsW
          (some 30),
        Effect.nack "mid-1" "mid-1" "Insufficient credit",
        Effect.status "outbound" "down" "insufficient_credit"
          "Insufficient credit" none] := by
  obtain ⟨ps, hps, _, hfail⟩ :=
    outbound_response_ack_iff cfgW msgW 200
      "ERR-41 Insufficient credit" rfl rfl
  have he : get_send_params cfgW msgW = some paramsW := rfl
  rw [hps] at he
  obtain rfl := Option.some.inj he
  have hcode : (get_send_status "ERR-41 Insufficient credit").code =
      some "ERR-41" := rfl
  have h := hfail (by rw [hcode]; rintro ⟨_, h⟩; exact absurd h (by simp))
  rw [h]
  rfl

/-- Claim C5: the vendor request parameters always carry `username`,
`password`, `sender` (= `from_addr`), `receiver` (= `to_addr`) and
`message` (= `content`), and carry a `message_id` equal to the nested
`transport_metadata.vas2nets_sms.msgid` value exactly when that chained
lookup yields a present (non-null) value; at any absent level of the
nesting the parameter is omitted. -/
theorem get_send_params_spec (cfg : Config) (msg : OutMessage)
    (hsl : supportsLookup (msgVal msg)
      ["transport_metadata", "vas2nets_sms", "msgid"] = true) :
    ∃ ps, get_send_params cfg msg = some ps ∧
      ps.lookup "username" = some (Val.vstr cfg.username) ∧
      ps.lookup "password" = some (Val.vstr cfg.password) ∧
      ps.lookup "sender" = some (optStr msg.from_addr) ∧
      ps.lookup "receiver" = some (optStr msg.to_addr) ∧
      ps.lookup "message" = some (optStr msg.content) ∧
      (∀ v : Val, ("message_id", v) ∈ ps ↔
        (get_in (msgVal msg)
            ["transport_metadata", "vas2nets_sms", "msgid"] = some v ∧
          v ≠ Val.vnull)) := by
  have hchain := get_in_eq_chain _ _ hsl
  unfold get_send_params
  rw [hchain]
  cases hv : chainLookupSpec (msgVal msg)
      ["transport_metadata", "vas2nets_sms", "msgid"] with
  | vnull =>
      refine ⟨_, rfl, rfl, rfl, rfl, rfl, rfl, ?_⟩
      intro v
      constructor
      · intro hmem
        exfalso
        simp at hmem
      · rintro ⟨hv', hne⟩
        exact absurd (Option.some.inj hv').symm hne
  | vstr s =>
      refine ⟨_, rfl, rfl, rfl, rfl, rfl, rfl, ?_⟩
      intro v
      constructor
      · intro hmem
        simp at hmem
        subst hmem
        exact ⟨rfl, by simp⟩
      · rintro ⟨hv', hne⟩
        obtain rfl := Option.some.inj hv'
        simp
  | vdict es =>
      refine ⟨_, rfl, rfl, rfl, rfl, rfl, rfl, ?_⟩
      intro v
      constructor
      · intro hmem
        simp at hmem
        subst hmem
        exact ⟨rfl, by simp⟩
      · rintro ⟨hv', hne⟩
        obtain rfl := Option.some.inj hv'
        simp

/-- Witness for C5: on the concrete message carrying a vendor msgid the
parameter list is exactly `paramsW`, whose `message_id` entry is the
metadata msgid. -/
theorem get_send_params_spec_witness :
    supportsLookup (msgVal msgW)
      ["transport_metadata", "vas2nets_sms", "msgid"] = true ∧
    ∃ ps, get_send_params cfgW msgW = some ps ∧
      ps.lookup "username" = some (Val.vstr cfgW.username) ∧
      ps.lookup "password" = some (Val.vstr cfgW.password) ∧
      ps.lookup "sender" = some (optStr msgW.from_addr) ∧
      ps.lookup "receiver" = some (optStr msgW.to_addr) ∧
      ps.lookup "message" = some (optStr msgW.content) ∧
      (∀ v : Val, ("message_id", v) ∈ ps ↔
        (get_in (msgVal msgW)
            ["transport_metadata", "vas2nets_sms", "msgid"] = some v ∧
          v ≠ Val.vnull)) :=
  ⟨rfl, get_send_params_spec cfgW msgW rfl⟩

theorem handle_raw_inbound_decode_eq (mid : String) (req : InRequest)
    (h : req.decodeOk = false) :
    handle_raw_inbound_message mid req =
      some (handle_decode_error mid req) := by
  unfold handle_raw_inbound_message
  rw [if_pos h]

theorem handle_raw_inbound_badfields_eq (mid : String) (req : InRequest)
    (h : req.decodeOk = true)
    (he : (get_field_values req EXPECTED_FIELDS).2 ≠ []) :
    handle_raw_inbound_message mid req =
      some (handle_bad_request_fields mid req
        (get_field_values req EXPECTED_FIELDS).2) := by
  unfold handle_raw_inbound_message
  rw [if_neg (by simp [h])]
  rw [if_pos he]

theorem handle_outbound_missing_eq (cfg : Config) (msg : OutMessage)
    (outcome : SendOutcome)
    (h : ensure_message_values msg EXPECTED_MESSAGE_FIELDS ≠ []) :
    handle_outbound_message cfg msg outcome =
      some [Effect.reject msg.message_id
        (ensure_message_values msg EXPECTED_MESSAGE_FIELDS)] := by
  unfold handle_outbound_message
  rw [if_pos h]
  rfl

/-- Claim C8: an inbound request with all six fields present (and
non-empty, hence decodable into values) publishes a bus message whose
`from_addr` is the sender with address type `msisdn`, `to_addr` the
receiver, `content` the msgdata, `provider` the operator, and whose
`transport_metadata.vas2nets_sms.msgid` equals the inbound msgid; the
effect order is publish, then the HTTP 200 `{}` response, then the ok
health status. -/
theorem inbound_success_spec (mid : String) (req : InRequest)
    (hdec : req.decodeOk = true)
    (sender receiver msgdata recvtime msgid operator : String)
    (h1 : req.fields.lookup "sender" = some sender) (n1 : sender ≠ "")
    (h2 : req.fields.lookup "receiver" = some receiver)
    (n2 : receiver ≠ "")
    (h3 : req.fields.lookup "msgdata" = some msgdata) (n3 : msgdata ≠ "")
    (h4 : req.fields.lookup "recvtime" = some recvtime)
    (n4 : recvtime ≠ "")
    (h5 : req.fields.lookup "msgid" = some msgid) (n5 : msgid ≠ "")
    (h6 : req.fields.lookup "operator" = some operator)
    (n6 : operator ≠ "") :
    handle_raw_inbound_message mid req =
      some [Effect.publish
          { message_id := mid
            from_addr := sender
            from_addr_type := "msisdn"
            to_addr := receiver
            content := msgdata
            provider := operator
            transport_type := "sms"
            transport_metadata := Val.vdict
              [("vas2nets_sms", Val.vdict [("msgid", Val.vstr msgid)])] },
        Effect.respond httpOK RespBody.emptyJson,
        Effect.status "inbound" "ok" "request_success"
          "Request successful" none] := by
  have hfv : get_field_values req EXPECTED_FIELDS =
      ([("sender", sender), ("receiver", receiver),
        ("msgdata", msgdata), ("recvtime", recvtime),
        ("msgid", msgid), ("operator", operator)], []) := by
    unfold get_field_values EXPECTED_FIELDS
    simp [h1, h2, h3, h4, h5, h6, n1, n2, n3, n4, n5, n6]
  unfold handle_raw_inbound_message
  rw [if_neg (by simp [hdec])]
  rw [hfv]
  rw [if_neg (by simp)]
  rfl

/-- Witness for C8 on a concrete six-field inbound request. -/
theorem inbound_success_spec_witness :
    handle_raw_inbound_message "m7" reqW =
      some [Effect.publish
          { message_id := "m7"
            from_addr := "+1"
            from_addr_type := "msisdn"
            to_addr := "+2"
            content := "hi"
            provider := "op"
            transport_type := "sms"
            transport_metadata := Val.vdict
              [("vas2nets_sms", Val.vdict [("msgid", Val.vstr "m0")])] },
        Effect.respond httpOK RespBody.emptyJson,
        Effect.status "inbound" "ok" "request_success"
          "Request successful" none] :=
  inbound_success_spec "m7" reqW rfl "+1" "+2" "hi" "t" "m0" "op"
    rfl (by decide) rfl (by decide) rfl (by decide) rfl (by decide)
    rfl (by decide) rfl (by decide)

/-- Claim C1 (amended): of the terminal error outcomes, inbound decode
failure, inbound missing fields, outbound timeout/cancellation and
outbound vendor-reported failure each emit exactly one health-status
event — but the outbound missing-fields path emits a bus rejection and
zero health-status events, so not every error path emits one. -/
theorem error_paths_status_spec :
    (∀ (mid : String) (req : InRequest), req.decodeOk = false →
      ∃ effs, handle_raw_inbound_message mid req = some effs ∧
        statusCount effs = 1) ∧
    (∀ (mid : String) (req : InRequest), req.decodeOk = true →
      (get_field_values req EXPECTED_FIELDS).2 ≠ [] →
      ∃ effs, handle_raw_inbound_message mid req = some effs ∧
        statusCount effs = 1) ∧
    (∀ (cfg : Config) (msg : OutMessage) (outcome : SendOutcome),
      ensure_message_values msg EXPECTED_MESSAGE_FIELDS = [] →
      supportsLookup (msgVal msg)
        ["transport_metadata", "vas2nets_sms", "msgid"] = true →
      (outcome = SendOutcome.responseNeverReceived ∨
        outcome = SendOutcome.connectingCancelled ∨
        outcome = SendOutcome.cancelled) →
      ∃ effs, handle_outbound_message cfg msg outcome = some effs ∧
        statusCount effs = 1) ∧
    (∀ (cfg : Config) (msg : OutMessage) (code : Nat) (body : String),
      ensure_message_values msg EXPECTED_MESSAGE_FIELDS = [] →
      supportsLookup (msgVal msg)
        ["transport_metadata", "vas2nets_sms", "msgid"] = true →
      ¬(code = httpOK ∧ (get_send_status body).code = none) →
      ∃ effs, handle_outbound_message cfg msg
          (SendOutcome.response code body) = some effs ∧
        statusCount effs = 1) ∧
    (∀ (cfg : Config) (msg : OutMessage) (outcome : SendOutcome),
      ensure_message_values msg EXPECTED_MESSAGE_FIELDS ≠ [] →
      ∃ effs, handle_outbound_message cfg msg outcome = some effs ∧
        statusCount effs = 0) := by
  refine ⟨?_, ?_, ?_, ?_, ?_⟩
  · intro mid req h
    exact ⟨_, handle_raw_inbound_decode_eq mid req h, rfl⟩
  · intro mid req h he
    exact ⟨_, handle_raw_inbound_badfields_eq mid req h he, rfl⟩
  · intro cfg msg outcome hval hsl hto
    obtain ⟨ps, hps⟩ := get_send_params_some cfg msg hsl
    exact ⟨_,
      handle_outbound_timeout_eq cfg msg outcome hval ps hps hto, rfl⟩
  · intro cfg msg code body hval hsl hfail
    obtain ⟨ps, hps⟩ := get_send_params_some cfg msg hsl
    refine ⟨Effect.httpCall cfg.outbound_url ps
        cfg.outbound_request_timeout ::
      handle_outbound_fail msg (get_send_status body), ?_, rfl⟩
    rw [handle_outbound_response_eq cfg msg code body hval ps hps,
      if_neg hfail]
  · intro cfg msg outcome h
    exact ⟨_, handle_outbound_missing_eq cfg msg outcome h, rfl⟩

/-- Witness for the amended C1: a concrete undecodable request emits
one status; a concrete message missing `to_addr` emits zero. -/
theorem error_paths_status_spec_witness :
    (∃ effs, handle_raw_inbound_message "m1" reqUndecW = some effs ∧
      statusCount effs = 1) ∧
    (∃ effs, handle_outbound_message cfgW msgNoToW
        (SendOutcome.response 200 "OK") = some effs ∧
      statusCount effs = 0) :=
  ⟨error_paths_status_spec.1 "m1" reqUndecW rfl,
    error_paths_status_spec.2.2.2.2 cfgW msgNoToW
      (SendOutcome.response 200 "OK") (by decide)⟩

/-- Counterexample to C1 as stated: the outbound missing-fields path is
a terminal error outcome, yet it emits a bus rejection and zero
health-status events. -/
theorem error_path_without_status_counterexample :
    handle_outbound_message cfgW msgNoToW
        (SendOutcome.response 200 "OK") =
      some [Effect.reject "mid-2" ["to_addr"]] ∧
    statusCount [Effect.reject "mid-2" ["to_addr"]] = 0 :=
  ⟨rfl, rfl⟩

end Vas2Nets
